import Mathlib

/-!
Verification of the Muxify tmux-management core: a shallow embedding of the
connection registry (`ConnectionManager`), the command executors and the tmux
state service (`TmuxService`), together with theorems checking the
specification's claims against this embedding.

Conventions of the embedding:
* shell command execution is modelled by an oracle `E : String → CommandResult`
  (one result per command string), and SSH-level effects by a `World` record;
* JavaScript string truthiness (`undefined`/empty string are falsy) is modelled
  by `truthy : Option String → Bool`;
* `parseInt(s, 10)` is modelled by `parseIntJS` (leading whitespace, optional
  sign, maximal digit run; `none` plays the role of `NaN`);
* stateful methods become pure functions returning an outcome
  (`Except String _` for methods that can throw) together with the post-state
  and/or the list of issued commands; total return types model "never throws".
-/

namespace Muxify

/-- Result of running one shell command (stdout/stderr already trimmed). -/
structure CommandResult where
  stdout : String
  stderr : String
  exitCode : Int
deriving DecidableEq, Repr

/-- JavaScript truthiness of a `string | undefined` value: `undefined` and the
empty string are falsy, every other string is truthy. -/
def truthy : Option String → Bool
  | none => false
  | some s => s ≠ ""

/-- The maximal run of decimal digits at the front of a character list, as a
number; `none` when there is no leading digit. -/
def digitsValue (cs : List Char) : Option Nat :=
  let ds := cs.takeWhile Char.isDigit
  if ds.isEmpty then none
  else some (ds.foldl (fun n c => n * 10 + (c.toNat - 48)) 0)

/-- JavaScript `parseInt(s, 10)`: skip leading whitespace, accept an optional
sign, then read the maximal run of decimal digits; `none` models `NaN`. -/
def parseIntJS (s : String) : Option Int :=
  let cs := s.toList.dropWhile Char.isWhitespace
  match cs with
  | '-' :: rest => (digitsValue rest).map (fun n => -(n : Int))
  | '+' :: rest => (digitsValue rest).map (fun n => (n : Int))
  | rest => (digitsValue rest).map (fun n => (n : Int))

/-- The idiom `parseInt(s, 10) || 0` of the source: `NaN` collapses to `0`. -/
def parseIntOr0 (s : String) : Int :=
  (parseIntJS s).getD 0

/-- Split a character list on a separator character, JavaScript
`split(sep)` style: the empty input yields one empty field. -/
def splitChars (sep : Char) : List Char → List (List Char)
  | [] => [[]]
  | c :: rest =>
    let r := splitChars sep rest
    if c = sep then [] :: r
    else
      match r with
      | [] => [[c]]
      | h :: t => (c :: h) :: t

/-- JavaScript `s.split(sep)` for a one-character separator. -/
def splitOnChar (sep : Char) (s : String) : List String :=
  (splitChars sep s.toList).map (fun cs => String.mk cs)

/-- JavaScript `s.trim()` (whitespace stripped from both ends). -/
def jsTrim (s : String) : String :=
  String.mk
    (((s.toList.dropWhile Char.isWhitespace).reverse.dropWhile
        Char.isWhitespace).reverse)

/-- `TmuxPane` record (src: types used by `TmuxService.listPanes`). -/
structure TmuxPane where
  id : String
  index : Int
  active : Bool
  currentPath : String
  currentCommand : String
  width : Int
  height : Int
  windowId : String
  sessionName : String
  connectionId : String
deriving DecidableEq, Repr

/-- `TmuxWindow` record (src: types used by `TmuxService.listWindows`). -/
structure TmuxWindow where
  id : String
  index : Int
  name : String
  active : Bool
  panes : List TmuxPane := []
  sessionName : String
  connectionId : String
deriving DecidableEq, Repr

/-- `TmuxSession` record (src: types used by `TmuxService.listSessions`);
`createdAt` holds the epoch milliseconds of `new Date(parseInt(f4) * 1000)`
(an invalid date, from a `NaN` parse, is modelled as `none`). -/
structure TmuxSession where
  id : String
  name : String
  attached : Bool
  windowCount : Int
  createdAt : Option Int := none
  windows : List TmuxWindow := []
  connectionId : String
deriving DecidableEq, Repr

/-- The `-F` format string of `TmuxService.listSessions`. -/
def sessionFormat : String :=
  "#{session_id}:#{session_name}:#{session_attached}:#{session_windows}:#{session_created}"

/-- The command issued by `TmuxService.listSessions`. -/
def listSessionsCmd : String :=
  "tmux list-sessions -F \"" ++ sessionFormat ++ "\" 2>/dev/null"

/-- One parsed line of `TmuxService.listSessions`: colon-split, a record is
produced only when at least 4 fields are present (src part_000 lines 446-464). -/
def parseSessionLine (connectionId line : String) : Option TmuxSession :=
  let parts := splitOnChar ':' line
  if 4 ≤ parts.length then
    some { id := parts.getD 0 ""
           name := parts.getD 1 ""
           attached := parts.getD 2 "" == "1"
           windowCount := parseIntOr0 (parts.getD 3 "")
           createdAt :=
             if truthy (parts.get? 4) then
               (parseIntJS (parts.getD 4 "")).map (fun n => n * 1000)
             else none
           windows := []
           connectionId := connectionId }
  else none

/-- The non-blank lines of a command's stdout (src: `split('\n')` then
`filter(line => line.trim())`). -/
def nonBlankLines (stdout : String) : List String :=
  (splitOnChar '\n' stdout).filter (fun l => jsTrim l ≠ "")

/-- `TmuxService.listSessions` applied to the result of its command (src
part_000 lines 432-467): non-zero exit or empty stdout yields `[]`. -/
def listSessionsOfResult (connectionId : String) (result : CommandResult) :
    List TmuxSession :=
  if result.exitCode ≠ 0 ∨ result.stdout = "" then []
  else (nonBlankLines result.stdout).filterMap (parseSessionLine connectionId)

/-- `TmuxService.listSessions` against a command oracle. -/
def listSessions (E : String → CommandResult) (connectionId : String) :
    List TmuxSession :=
  listSessionsOfResult connectionId (E listSessionsCmd)

/-- The `-F` format string of `TmuxService.listWindows`. -/
def windowFormat : String :=
  "#{window_id}:#{window_index}:#{window_name}:#{window_active}"

/-- The command issued by `TmuxService.listWindows`. -/
def listWindowsCmd (sessionName : String) : String :=
  "tmux list-windows -t \"" ++ sessionName ++ "\" -F \"" ++ windowFormat ++ "\" 2>/dev/null"

/-- One parsed line of `TmuxService.listWindows` (src part_000 lines 486-498). -/
def parseWindowLine (sessionName connectionId line : String) : Option TmuxWindow :=
  let parts := splitOnChar ':' line
  if 4 ≤ parts.length then
    some { id := parts.getD 0 ""
           index := parseIntOr0 (parts.getD 1 "")
           name := parts.getD 2 ""
           active := parts.getD 3 "" == "1"
           panes := []
           sessionName := sessionName
           connectionId := connectionId }
  else none

/-- `TmuxService.listWindows` applied to the result of its command. -/
def listWindowsOfResult (connectionId sessionName : String) (result : CommandResult) :
    List TmuxWindow :=
  if result.exitCode ≠ 0 ∨ result.stdout = "" then []
  else (nonBlankLines result.stdout).filterMap (parseWindowLine sessionName connectionId)

/-- `TmuxService.listWindows` against a command oracle. -/
def listWindows (E : String → CommandResult) (connectionId sessionName : String) :
    List TmuxWindow :=
  listWindowsOfResult connectionId sessionName (E (listWindowsCmd sessionName))

/-- The `-F` format string of `TmuxService.listPanes`. -/
def paneFormat : String :=
  "#{pane_id}:#{pane_index}:#{pane_active}:#{pane_current_path}:#{pane_current_command}:#{pane_width}:#{pane_height}"

/-- The command issued by `TmuxService.listPanes`. -/
def listPanesCmd (sessionName windowId : String) : String :=
  "tmux list-panes -t \"" ++ sessionName ++ ":" ++ windowId ++ "\" -F \"" ++ paneFormat ++ "\" 2>/dev/null"

/-- One parsed line of `TmuxService.listPanes` (src part_000 lines 521-537): a
record needs at least 7 colon-separated fields; an empty current-path field
falls back to `"~"` and an empty current-command field to `""`. -/
def parsePaneLine (windowId sessionName connectionId line : String) : Option TmuxPane :=
  let parts := splitOnChar ':' line
  if 7 ≤ parts.length then
    some { id := parts.getD 0 ""
           index := parseIntOr0 (parts.getD 1 "")
           active := parts.getD 2 "" == "1"
           currentPath := if parts.getD 3 "" ≠ "" then parts.getD 3 "" else "~"
           currentCommand := parts.getD 4 ""
           width := parseIntOr0 (parts.getD 5 "")
           height := parseIntOr0 (parts.getD 6 "")
           windowId := windowId
           sessionName := sessionName
           connectionId := connectionId }
  else none

/-- `TmuxService.listPanes` applied to the result of its command. -/
def listPanesOfResult (connectionId sessionName windowId : String)
    (result : CommandResult) : List TmuxPane :=
  if result.exitCode ≠ 0 ∨ result.stdout = "" then []
  else (nonBlankLines result.stdout).filterMap (parsePaneLine windowId sessionName connectionId)

/-- `TmuxService.listPanes` against a command oracle. -/
def listPanes (E : String → CommandResult) (connectionId sessionName windowId : String) :
    List TmuxPane :=
  listPanesOfResult connectionId sessionName windowId (E (listPanesCmd sessionName windowId))

/-! ### Connection registry (`ConnectionManager`) -/

/-- SSH authentication kind. -/
inductive AuthType where
  | password
  | privateKey
deriving DecidableEq, Repr

/-- `SSHConnectionConfig` (src: types used by `ConnectionManager`); optional
string fields model `string | undefined`. -/
structure SSHConnectionConfig where
  id : String
  name : Option String := none
  host : String
  port : Nat
  username : String
  authType : AuthType
  password : Option String := none
  privateKeyPath : Option String := none
  passphrase : Option String := none
deriving DecidableEq, Repr

/-- Kind of a registry connection. -/
inductive ConnType where
  | local
  | ssh
deriving DecidableEq, Repr

/-- `Connection` record of the registry. -/
structure Connection where
  id : String
  type : ConnType
  name : String
  config : Option SSHConnectionConfig := none
deriving DecidableEq, Repr

/-- Model of a cached `CommandExecutor`: either the local executor or an SSH
executor carrying the config it was built from and its connected flag. -/
inductive ExecutorModel where
  | localExec
  | sshExec (config : SSHConnectionConfig) (connected : Bool)
deriving DecidableEq, Repr

/-- Insertion into an association list with JavaScript `Map.set` semantics: an
existing key keeps its position and gets the new value, a new key is appended. -/
def assocSet {β : Type} (k : String) (v : β) (l : List (String × β)) :
    List (String × β) :=
  if l.any (fun p => p.1 == k) then
    l.map (fun p => if p.1 == k then (k, v) else p)
  else l ++ [(k, v)]

/-- Deletion from an association list (`Map.delete`). -/
def assocErase {β : Type} (k : String) (l : List (String × β)) :
    List (String × β) :=
  l.filter (fun p => p.1 != k)

/-- The state of a `ConnectionManager`: its two in-memory maps, the Credential
Store contents (`vscode.SecretStorage`) and the persisted non-secret
connection list (`globalState` under the connections storage key). -/
structure RegistryState where
  connections : List (String × Connection)
  executors : List (String × ExecutorModel)
  secrets : List (String × String)
  persisted : List Connection
deriving DecidableEq, Repr

/-- Credential Store key for a connection's password
(`'muxify.ssh.password.' + id`). -/
def passwordKey (id : String) : String :=
  "muxify.ssh.password." ++ id

/-- Credential Store key for a connection's key passphrase
(`'muxify.ssh.passphrase.' + id`). -/
def passphraseKey (id : String) : String :=
  "muxify.ssh.passphrase." ++ id

/-- The protected local connection id. -/
def localConnectionId : String := "local"

/-- Display name of an SSH connection:
`config.name || username + '@' + host` (JS truthiness). -/
def connectionDisplayName (config : SSHConnectionConfig) : String :=
  if truthy config.name then config.name.getD ""
  else config.username ++ "@" ++ config.host

/-- `ConnectionManager.saveConnections` (src part_000 lines 193-211): the list
written to durable storage — SSH connections only, with `password` and
`passphrase` overwritten by `undefined` in any present config. -/
def safeConnections (connections : List (String × Connection)) : List Connection :=
  ((connections.map Prod.snd).filter (fun c => c.type == ConnType.ssh)).map
    (fun c =>
      { c with config :=
          c.config.map (fun cfg => { cfg with password := none, passphrase := none }) })

/-- `ConnectionManager.initializeLocalConnection` followed by
`loadConnections(saved)`: the state right after the constructor, given the
persisted connection list read from storage. -/
def mkConnectionManager (saved : List Connection) : RegistryState :=
  let base : RegistryState :=
    { connections := [(localConnectionId,
        { id := localConnectionId, type := ConnType.local, name := "本地" })]
      executors := [(localConnectionId, ExecutorModel.localExec)]
      secrets := []
      persisted := saved }
  saved.foldl
    (fun st conn =>
      if conn.type == ConnType.ssh ∧ conn.config.isSome then
        { st with connections := assocSet conn.id conn st.connections }
      else st)
    base

/-- A fresh registry (empty storage, empty Credential Store). -/
def initialState : RegistryState :=
  mkConnectionManager []

/-- `ConnectionManager.addSSHConnection` (src part_000 lines 230-258): store
truthy secrets in the Credential Store, register the connection (its config
kept in memory as given) and persist via `saveConnections`. -/
def addSSHConnection (st : RegistryState) (config : SSHConnectionConfig) :
    Connection × RegistryState :=
  let secrets1 :=
    if truthy config.password then
      assocSet (passwordKey config.id) (config.password.getD "") st.secrets
    else st.secrets
  let secrets2 :=
    if truthy config.passphrase then
      assocSet (passphraseKey config.id) (config.passphrase.getD "") secrets1
    else secrets1
  let connection : Connection :=
    { id := config.id, type := ConnType.ssh
      name := connectionDisplayName config, config := some config }
  let connections := assocSet connection.id connection st.connections
  (connection,
   { st with connections := connections, secrets := secrets2
             persisted := safeConnections connections })

/-- `ConnectionManager.getStoredPassword`. -/
def getStoredPassword (st : RegistryState) (connectionId : String) : Option String :=
  List.lookup (passwordKey connectionId) st.secrets

/-- `ConnectionManager.getStoredPassphrase`. -/
def getStoredPassphrase (st : RegistryState) (connectionId : String) : Option String :=
  List.lookup (passphraseKey connectionId) st.secrets

/-- `ConnectionManager.updateSSHConnection` (src part_000 lines 277-299):
unknown or non-SSH id throws `连接不存在`; otherwise the cached executor is
disposed and evicted, the record replaced and the registry persisted. -/
def updateSSHConnection (st : RegistryState) (config : SSHConnectionConfig) :
    Except String Unit × RegistryState :=
  match List.lookup config.id st.connections with
  | none => (Except.error "连接不存在", st)
  | some existing =>
    if existing.type ≠ ConnType.ssh then (Except.error "连接不存在", st)
    else
      let executors := assocErase config.id st.executors
      let connection : Connection :=
        { id := config.id, type := ConnType.ssh
          name := connectionDisplayName config, config := some config }
      let connections := assocSet config.id connection st.connections
      (Except.ok (),
       { st with executors := executors, connections := connections
                 persisted := safeConnections connections })

/-- `ConnectionManager.removeConnection` (src part_000 lines 304-321): only the
local id is rejected (`不能移除本地连接`); any other id — known or not — has
its executor evicted, both Credential Store keys deleted, the record removed
and the registry persisted. -/
def removeConnection (st : RegistryState) (id : String) :
    Except String Unit × RegistryState :=
  if id = localConnectionId then (Except.error "不能移除本地连接", st)
  else
    let executors := assocErase id st.executors
    let secrets := assocErase (passphraseKey id) (assocErase (passwordKey id) st.secrets)
    let connections := assocErase id st.connections
    (Except.ok (),
     { st with executors := executors, secrets := secrets
               connections := connections
               persisted := safeConnections connections })

/-- The external world seen by the registry: the outcome of an SSH connect
attempt for a given config, and the outcome of running a command on an
executor (`Except.error` models a rejected promise). -/
structure World where
  connect : SSHConnectionConfig → Except String Unit
  run : ExecutorModel → String → Except String CommandResult

/-- The password-merging step of `ConnectionManager.getExecutor` (src part_000
lines 349-354): a stored password is copied into the config only when the
auth type is `password`, the in-memory config lacks one, and the stored value
is truthy. -/
def mergeStoredPassword (st : RegistryState) (connectionId : String)
    (config : SSHConnectionConfig) : SSHConnectionConfig :=
  if config.authType = AuthType.password ∧ ¬ truthy config.password then
    match getStoredPassword st connectionId with
    | some sp => if sp ≠ "" then { config with password := some sp } else config
    | none => config
  else config

/-- The passphrase-merging step of `ConnectionManager.getExecutor` (src
part_000 lines 356-361). -/
def mergeStoredPassphrase (st : RegistryState) (connectionId : String)
    (config : SSHConnectionConfig) : SSHConnectionConfig :=
  if config.authType = AuthType.privateKey ∧ ¬ truthy config.passphrase then
    match getStoredPassphrase st connectionId with
    | some sp => if sp ≠ "" then { config with passphrase := some sp } else config
    | none => config
  else config

/-- `ConnectionManager.getExecutor` (src part_000 lines 326-370): cached
executor if present; unknown id throws `连接不存在: id`; local ids get a fresh
cached local executor; SSH ids get a config with stored secrets merged in, an
eager connect, and the executor is cached only after the connect succeeds. -/
def getExecutor (w : World) (st : RegistryState) (connectionId : String) :
    Except String ExecutorModel × RegistryState :=
  match List.lookup connectionId st.executors with
  | some existing => (Except.ok existing, st)
  | none =>
    match List.lookup connectionId st.connections with
    | none => (Except.error ("连接不存在: " ++ connectionId), st)
    | some connection =>
      if connection.type = ConnType.local then
        let executor := ExecutorModel.localExec
        (Except.ok executor,
         { st with executors := assocSet connectionId executor st.executors })
      else
        match connection.config with
        | some config0 =>
          if connection.type = ConnType.ssh then
            let config :=
              mergeStoredPassphrase st connectionId
                (mergeStoredPassword st connectionId config0)
            match w.connect config with
            | Except.error e => (Except.error e, st)
            | Except.ok () =>
              let executor := ExecutorModel.sshExec config true
              (Except.ok executor,
               { st with executors := assocSet connectionId executor st.executors })
          else (Except.error ("无法创建执行器: " ++ connectionId), st)
        | none => (Except.error ("无法创建执行器: " ++ connectionId), st)

/-- `ConnectionManager.execute` (src part_000 lines 375-378). -/
def executeOn (w : World) (st : RegistryState) (connectionId command : String) :
    Except String CommandResult × RegistryState :=
  match getExecutor w st connectionId with
  | (Except.error e, st1) => (Except.error e, st1)
  | (Except.ok executor, st1) =>
    match w.run executor command with
    | Except.error e => (Except.error e, st1)
    | Except.ok r => (Except.ok r, st1)

/-- `ConnectionManager.testConnection` (src part_000 lines 383-390): runs the
probe and reports `exitCode === 0`; every thrown error collapses to `false`
(the return type `Bool` reflects that the method never throws). -/
def testConnection (w : World) (st : RegistryState) (connectionId : String) :
    Bool × RegistryState :=
  match executeOn w st connectionId "echo \"test\"" with
  | (Except.ok r, st1) => (r.exitCode == 0, st1)
  | (Except.error _, st1) => (false, st1)

/-! ### Mutating tmux operations -/

/-- The command built by `TmuxService.createSession` (src part_000 lines
564-567): the `-s` flag is added only for a truthy name. -/
def createSessionCmd (name : Option String) : String :=
  if truthy name then "tmux new-session -d -s \"" ++ name.getD "" ++ "\""
  else "tmux new-session -d"

/-- `TmuxService.createSession` (src part_000 lines 563-582), returning the
outcome together with the list of issued commands. Non-zero exit throws the
captured stderr (or the generic `创建会话失败`); on success the listing is
refreshed, and the result is the session with the requested name (or `null`,
i.e. `none`, when absent) — without a requested name, the last listed session. -/
def createSession (E : String → CommandResult) (connectionId : String)
    (name : Option String) :
    Except String (Option TmuxSession) × List String :=
  let command := createSessionCmd name
  let result := E command
  if result.exitCode ≠ 0 then
    (Except.error (if result.stderr ≠ "" then result.stderr else "创建会话失败"),
     [command])
  else
    let sessions := listSessionsOfResult connectionId (E listSessionsCmd)
    if truthy name then
      (Except.ok (sessions.find? (fun s => s.name == name.getD "")),
       [command, listSessionsCmd])
    else
      (Except.ok sessions.getLast?, [command, listSessionsCmd])

/-- The command issued by `TmuxService.killPane` (src part_000 lines 706-715). -/
def killPaneCmd (paneId : String) : String :=
  "tmux kill-pane -t \"" ++ paneId ++ "\""

/-- The command issued by `TmuxService.killWindow` (src part_000 lines
631-640). -/
def killWindowCmd (sessionName : String) (windowIndex : Int) : String :=
  "tmux kill-window -t \"" ++ sessionName ++ ":" ++ toString windowIndex ++ "\""

/-- The trailing numeric suffix of an opaque pane id such as `"%12"`. -/
def trailingIndex (paneId : String) : Nat :=
  ((paneId.toList.reverse.takeWhile Char.isDigit).reverse).foldl
    (fun n c => n * 10 + (c.toNat - 48)) 0

/-- Modelled from the spec: the multi-select batch deletion handler is not
among the sources under src/ (only the single-item tree commands and the
`TmuxService.killPane` primitive are); per the batch-ordering invariant, a
batch of sibling pane deletions is processed in descending order of the
trailing numeric suffix of the opaque pane id. -/
def sortPanesDescending (paneIds : List String) : List String :=
  List.insertionSort (fun a b => trailingIndex b ≤ trailingIndex a) paneIds

/-- Modelled from the spec: the pane-kill batch issues one
`TmuxService.killPane` command per target, in descending index order. -/
def killPanesBatch (paneIds : List String) : List String :=
  (sortPanesDescending paneIds).map killPaneCmd

/-- Modelled from the spec: a batch of sibling window deletions is processed
in descending `index` order. -/
def sortWindowsDescending (ws : List TmuxWindow) : List TmuxWindow :=
  List.insertionSort (fun a b => b.index ≤ a.index) ws

/-- Modelled from the spec: the window-kill batch issues one
`TmuxService.killWindow` command per target, in descending index order. -/
def killWindowsBatch (sessionName : String) (ws : List TmuxWindow) : List String :=
  (sortWindowsDescending ws).map (fun w => killWindowCmd sessionName w.index)

/-! ### Mouse mode -/

/-- The existence probe of `TmuxService.enableMouseMode` (src part_000 lines
755-758). -/
def checkMouseCmd : String :=
  "grep -q \"^set.*-g.*mouse.*on\" ~/.tmux.conf 2>/dev/null && echo \"exists\" || echo \"not_exists\""

/-- The config-append command of `TmuxService.enableMouseMode`. -/
def appendMouseCmd : String :=
  "echo \"set -g mouse on\" >> ~/.tmux.conf"

/-- The config-reload command of `TmuxService.enableMouseMode`. -/
def reloadConfCmd : String :=
  "tmux source-file ~/.tmux.conf 2>/dev/null || true"

/-- The live-option command of `TmuxService.enableMouseMode`. -/
def setMouseOnCmd : String :=
  "tmux set-option -g mouse on 2>/dev/null || true"

/-- `TmuxService.enableMouseMode` (src part_000 lines 753-783), returning the
outcome and the list of issued commands: the append runs only when the probe
printed `not_exists` (and its failure throws `添加配置失败`/stderr); the
reload result is ignored and the live option is always set afterwards. -/
def enableMouseMode (E : String → CommandResult) :
    Except String Unit × List String :=
  let check := E checkMouseCmd
  if jsTrim check.stdout = "not_exists" then
    let add := E appendMouseCmd
    if add.exitCode ≠ 0 then
      (Except.error (if add.stderr ≠ "" then add.stderr else "添加配置失败"),
       [checkMouseCmd, appendMouseCmd])
    else
      (Except.ok (), [checkMouseCmd, appendMouseCmd, reloadConfCmd, setMouseOnCmd])
  else
    (Except.ok (), [checkMouseCmd, reloadConfCmd, setMouseOnCmd])

/-! ### Operation sequences over the registry -/

/-- One registry mutation, for stating invariants over arbitrary sequences. -/
inductive RegOp where
  | add (config : SSHConnectionConfig)
  | update (config : SSHConnectionConfig)
  | remove (id : String)
deriving Repr

/-- The post-state of one registry mutation (outcome discarded; a throwing
operation leaves exactly the mutations it performed before the throw, which
for these operations is none). -/
def applyOp (st : RegistryState) (op : RegOp) : RegistryState :=
  match op with
  | RegOp.add config => (addSSHConnection st config).2
  | RegOp.update config => (updateSSHConnection st config).2
  | RegOp.remove id => (removeConnection st id).2

/-- A persisted record is stripped of secrets. -/
def stripped (c : Connection) : Bool :=
  match c.config with
  | none => true
  | some cfg => cfg.password = none ∧ cfg.passphrase = none

/-! ### Concrete example data used by witnesses -/

/-- Sample session-listing output: two well-formed lines around one malformed
line. -/
def sessionOutputExample : CommandResult :=
  { stdout := "$1:a:1:2:100\nbad\n$2:b:0:3", stderr := "", exitCode := 0 }

/-- Sample failing command result. -/
def failedResultExample : CommandResult :=
  { stdout := "", stderr := "no server running", exitCode := 1 }

/-- A world whose SSH connects always succeed and whose commands exit 0. -/
def trivialWorld : World :=
  { connect := fun _ => Except.ok ()
    run := fun _ _ => Except.ok { stdout := "test", stderr := "", exitCode := 0 } }

/-- A world whose SSH connects are rejected. -/
def failWorld : World :=
  { connect := fun _ => Except.error "authentication failed"
    run := fun _ _ => Except.ok { stdout := "", stderr := "", exitCode := 0 } }

/-- A sample password-auth SSH config. -/
def sshConfigExample : SSHConnectionConfig :=
  { id := "ssh-1", host := "h", port := 22, username := "u"
    authType := AuthType.password, password := some "pw" }

/-- The connection record `addSSHConnection` builds from `sshConfigExample`. -/
def sshConnectionExample : Connection :=
  { id := "ssh-1", type := ConnType.ssh, name := "u@h"
    config := some sshConfigExample }

/-- The registry right after adding `sshConfigExample` to a fresh registry. -/
def sshStateExample : RegistryState :=
  (addSSHConnection initialState sshConfigExample).2

/-- An SSH config that collides with the protected local id. -/
def localOverwriteConfig : SSHConnectionConfig :=
  { id := "local", host := "h", port := 22, username := "u"
    authType := AuthType.password, password := some "pw" }

/-- A command oracle where session creation succeeds and the refreshed listing
holds a single session named `"a"`. -/
def createOkOracle : String → CommandResult :=
  fun c =>
    if c = listSessionsCmd then { stdout := "$1:a:1:2", stderr := "", exitCode := 0 }
    else { stdout := "", stderr := "", exitCode := 0 }

/-- A command oracle whose mouse-config probe prints `exists`. -/
def mouseExistsOracle : String → CommandResult :=
  fun c =>
    if c = checkMouseCmd then { stdout := "exists", stderr := "", exitCode := 0 }
    else { stdout := "", stderr := "", exitCode := 0 }

end Muxify

namespace Muxify

/-! ### Shared helper lemmas -/

theorem length_filterMap_eq_length_filter {α β : Type} (f : α → Option β)
    (l : List α) :
    (l.filterMap f).length = (l.filter (fun x => (f x).isSome)).length := by
  induction l with
  | nil => rfl
  | cons a t ih =>
    cases hfa : f a <;>
      simp [List.filterMap_cons, List.filter_cons, hfa, ih]

theorem lookup_assocErase_self {β : Type} (k : String) (l : List (String × β)) :
    List.lookup k (assocErase k l) = none := by
  induction l with
  | nil => rfl
  | cons p t ih =>
    by_cases h : p.1 = k
    · simpa [assocErase, List.filter_cons, h] using ih
    · have hbk : (k == p.1) = false := by
        simp [Ne.symm h]
      simpa [assocErase, List.filter_cons, h, List.lookup, hbk] using ih

theorem lookup_assocErase_of_none {β : Type} (k k2 : String)
    (l : List (String × β)) (h : List.lookup k l = none) :
    List.lookup k (assocErase k2 l) = none := by
  induction l with
  | nil => rfl
  | cons p t ih =>
    have hk : (k == p.1) = false := by
      by_contra hc
      have : (k == p.1) = true := by
        cases hb : (k == p.1) with
        | true => rfl
        | false => exact absurd hb hc
      simp [List.lookup, this] at h
    have ht : List.lookup k t = none := by
      simpa [List.lookup, hk] using h
    by_cases h2 : p.1 = k2
    · simpa [assocErase, List.filter_cons, h2] using ih ht
    · have : (p.1 != k2) = true := by simp [h2]
      simpa [assocErase, List.filter_cons, this, List.lookup, hk] using ih ht

theorem stripped_mem_safeConnections (conns : List (String × Connection))
    (c : Connection) (hc : c ∈ safeConnections conns) : stripped c = true := by
  unfold safeConnections at hc
  obtain ⟨c0, _, rfl⟩ := List.mem_map.mp hc
  cases c0.config <;> simp [stripped]

instance : IsTotal String (fun a b => trailingIndex b ≤ trailingIndex a) :=
  ⟨fun a b => Nat.le_total (trailingIndex b) (trailingIndex a)⟩

instance : IsTrans String (fun a b => trailingIndex b ≤ trailingIndex a) :=
  ⟨fun _ _ _ h1 h2 => le_trans h2 h1⟩

instance : IsTotal TmuxWindow (fun a b => b.index ≤ a.index) :=
  ⟨fun a b => Int.le_total b.index a.index⟩

instance : IsTrans TmuxWindow (fun a b => b.index ≤ a.index) :=
  ⟨fun _ _ _ h1 h2 => le_trans h2 h1⟩

/-! ### Claims -/

/-- C1: every positional-index sibling deletion batch is processed in strictly
descending index order — panes by the trailing numeric suffix of their opaque
id, windows by `index` — and the pane-kill batch `[%3, %1, %2]` issues its
kill commands in the order `%3, %2, %1`. -/
theorem batch_deletions_descending :
    (∀ paneIds : List String, (paneIds.map trailingIndex).Nodup →
      List.Pairwise (fun a b => trailingIndex b < trailingIndex a)
        (sortPanesDescending paneIds))
    ∧ (∀ ws : List TmuxWindow, (ws.map TmuxWindow.index).Nodup →
      List.Pairwise (fun a b => b.index < a.index) (sortWindowsDescending ws))
    ∧ killPanesBatch ["%3", "%1", "%2"]
        = ["tmux kill-pane -t \"%3\"", "tmux kill-pane -t \"%2\"",
           "tmux kill-pane -t \"%1\""] := by
  refine ⟨?_, ?_, by decide⟩
  · intro ids h
    have hs : List.Pairwise (fun a b => trailingIndex b ≤ trailingIndex a)
        (sortPanesDescending ids) :=
      List.sorted_insertionSort _ ids
    have hperm : (sortPanesDescending ids).Perm ids :=
      List.perm_insertionSort _ ids
    have hne : List.Pairwise (fun a b => trailingIndex a ≠ trailingIndex b) ids :=
      List.pairwise_map.mp h
    have hne2 : List.Pairwise (fun a b => trailingIndex a ≠ trailingIndex b)
        (sortPanesDescending ids) :=
      (hperm.pairwise_iff (fun hab => Ne.symm hab)).mpr hne
    exact (hs.and hne2).imp (fun hab => lt_of_le_of_ne hab.1 (Ne.symm hab.2))
  · intro ws h
    have hs : List.Pairwise (fun a b : TmuxWindow => b.index ≤ a.index)
        (sortWindowsDescending ws) :=
      List.sorted_insertionSort _ ws
    have hperm : (sortWindowsDescending ws).Perm ws :=
      List.perm_insertionSort _ ws
    have hne : List.Pairwise (fun a b : TmuxWindow => a.index ≠ b.index) ws :=
      List.pairwise_map.mp h
    have hne2 : List.Pairwise (fun a b : TmuxWindow => a.index ≠ b.index)
        (sortWindowsDescending ws) :=
      (hperm.pairwise_iff (fun hab => Ne.symm hab)).mpr hne
    exact (hs.and hne2).imp (fun hab => lt_of_le_of_ne hab.1 (Ne.symm hab.2))

/-- C1 witness: the strict-descending ordering instantiated on a concrete
pane batch with distinct trailing indices. -/
theorem batch_deletions_descending_witness :
    List.Pairwise (fun a b => trailingIndex b < trailingIndex a)
      (sortPanesDescending ["%2", "%5", "%11"]) :=
  batch_deletions_descending.1 ["%2", "%5", "%11"] (by decide)

/-- C10: the listing parsers split on every colon, so a pane line whose
current-path field contains a colon yields a record truncated at that colon
with the command/width/height fields shifted; a window line whose name
contains a colon analogously shifts the active flag. -/
theorem colon_in_field_shifts_parse :
    parsePaneLine "w" "s" "c" "%0:0:1:/home/a:b:bash:80:24"
      = some { id := "%0", index := 0, active := true, currentPath := "/home/a",
               currentCommand := "b", width := 0, height := 80,
               windowId := "w", sessionName := "s", connectionId := "c" }
    ∧ parseWindowLine "s" "c" "@0:0:na:me:1"
      = some { id := "@0", index := 0, name := "na", active := false,
               panes := [], sessionName := "s", connectionId := "c" } := by
  constructor <;> decide

/-- C2: on a listing result with exit code 0 and non-empty stdout,
`listSessions` produces exactly one record per non-blank line with at least 4
colon-delimited fields; every produced record takes `windowCount` from the
parsed fourth field and is `attached` iff the third field is exactly `"1"`;
lines with fewer than 4 fields parse to nothing without aborting the rest. -/
theorem listSessions_wellFormed (cid : String) (r : CommandResult)
    (h0 : r.exitCode = 0) (h1 : r.stdout ≠ "") :
    ((listSessionsOfResult cid r).length
        = ((nonBlankLines r.stdout).filter
            (fun l => 4 ≤ (splitOnChar ':' l).length)).length)
    ∧ (∀ s ∈ listSessionsOfResult cid r, ∃ l ∈ nonBlankLines r.stdout,
        4 ≤ (splitOnChar ':' l).length
        ∧ s.windowCount = parseIntOr0 ((splitOnChar ':' l).getD 3 "")
        ∧ (s.attached = true ↔ (splitOnChar ':' l).getD 2 "" = "1"))
    ∧ (∀ l ∈ nonBlankLines r.stdout, (splitOnChar ':' l).length < 4 →
        parseSessionLine cid l = none) := by
  have hrepr : listSessionsOfResult cid r
      = (nonBlankLines r.stdout).filterMap (parseSessionLine cid) := by
    unfold listSessionsOfResult
    rw [if_neg]
    intro hc
    rcases hc with hc | hc
    · exact hc h0
    · exact h1 hc
  refine ⟨?_, ?_, ?_⟩
  · rw [hrepr, length_filterMap_eq_length_filter]
    apply congrArg
    apply List.filter_congr
    intro l _
    simp only [parseSessionLine]
    split <;> simp_all
  · intro s hs
    rw [hrepr] at hs
    obtain ⟨l, hl, hparse⟩ := List.mem_filterMap.mp hs
    refine ⟨l, hl, ?_⟩
    simp only [parseSessionLine] at hparse
    split at hparse
    · obtain rfl := Option.some.inj hparse
      refine ⟨by assumption, rfl, ?_⟩
      simp
    · exact absurd hparse (by simp)
  · intro l _ hlt
    unfold parseSessionLine
    rw [if_neg]
    omega

/-- C2 witness: the record count on a concrete listing with two well-formed
lines around a malformed one. -/
theorem listSessions_wellFormed_witness :
    (listSessionsOfResult "c" sessionOutputExample).length
      = ((nonBlankLines sessionOutputExample.stdout).filter
          (fun l => 4 ≤ (splitOnChar ':' l).length)).length :=
  (listSessions_wellFormed "c" sessionOutputExample rfl (by decide)).1

/-- C7: each listing operation maps a non-zero exit code or an empty stdout to
the empty list; the operations are total functions into `List`, so a missing
tmux server is never propagated as an error. -/
theorem listings_degrade_to_empty (cid sn wid : String) (r : CommandResult)
    (h : r.exitCode ≠ 0 ∨ r.stdout = "") :
    listSessionsOfResult cid r = []
    ∧ listWindowsOfResult cid sn r = []
    ∧ listPanesOfResult cid sn wid r = [] := by
  refine ⟨?_, ?_, ?_⟩ <;>
    first
    | (unfold listSessionsOfResult; rw [if_pos h])
    | (unfold listWindowsOfResult; rw [if_pos h])
    | (unfold listPanesOfResult; rw [if_pos h])

/-- C7 witness: the three listings on a concrete failing result. -/
theorem listings_degrade_to_empty_witness :
    listSessionsOfResult "c" failedResultExample = []
    ∧ listWindowsOfResult "c" "s" failedResultExample = []
    ∧ listPanesOfResult "c" "s" "0" failedResultExample = [] :=
  listings_degrade_to_empty "c" "s" "0" failedResultExample (Or.inl (by decide))

/-- C6: `createSession` issues the single new-session command and throws the
captured stderr (or the generic message when stderr is empty) on non-zero
exit; on success without a requested name it returns the last element of the
refreshed listing, and with a requested name it returns the session of that
exact name from the refreshed listing — or `none` (no exception) when the
name is absent. -/
theorem createSession_contract (E : String → CommandResult) (cid : String)
    (name : Option String) :
    ((E (createSessionCmd name)).exitCode ≠ 0 →
      createSession E cid name
        = (Except.error
             (if (E (createSessionCmd name)).stderr ≠ ""
              then (E (createSessionCmd name)).stderr else "创建会话失败"),
           [createSessionCmd name]))
    ∧ ((E (createSessionCmd name)).exitCode = 0 → truthy name = false →
      createSession E cid name
        = (Except.ok (listSessionsOfResult cid (E listSessionsCmd)).getLast?,
           [createSessionCmd name, listSessionsCmd]))
    ∧ ((E (createSessionCmd name)).exitCode = 0 → truthy name = true →
      createSession E cid name
        = (Except.ok ((listSessionsOfResult cid (E listSessionsCmd)).find?
             (fun s => s.name == name.getD "")),
           [createSessionCmd name, listSessionsCmd]))
    ∧ ((E (createSessionCmd name)).exitCode = 0 → truthy name = true →
        (listSessionsOfResult cid (E listSessionsCmd)).find?
          (fun s => s.name == name.getD "") = none →
      (createSession E cid name).1 = Except.ok none) := by
  refine ⟨?_, ?_, ?_, ?_⟩
  · intro h
    unfold createSession
    rw [if_pos h]
  · intro h0 hn
    unfold createSession
    rw [if_neg (by simp [h0]), if_neg (by simp [hn])]
  · intro h0 hn
    unfold createSession
    rw [if_neg (by simp [h0]), if_pos hn]
  · intro h0 hn hfind
    unfold createSession
    rw [if_neg (by simp [h0]), if_pos hn, hfind]

/-- C6 witness: creation succeeds, the requested name is absent from the
refreshed listing, and the result is a soft `none`, not an error. -/
theorem createSession_contract_witness :
    (createSession createOkOracle "c" (some "x")).1 = Except.ok none :=
  (createSession_contract createOkOracle "c" (some "x")).2.2.2
    (by decide) (by decide) (by decide)

/-- C9: `enableMouseMode` issues the config-append command only when the
existence probe reported `not_exists` — a probe reporting `exists` issues no
append, so an already-present `set -g mouse on` line is not duplicated — the
live set-option command is always issued on the non-throwing paths, and the
outcome depends only on the probe and append results, never on the reload
command's result. -/
theorem enableMouseMode_contract (E : String → CommandResult) :
    (jsTrim (E checkMouseCmd).stdout ≠ "not_exists" →
      (enableMouseMode E).2 = [checkMouseCmd, reloadConfCmd, setMouseOnCmd]
      ∧ appendMouseCmd ∉ (enableMouseMode E).2
      ∧ setMouseOnCmd ∈ (enableMouseMode E).2)
    ∧ (jsTrim (E checkMouseCmd).stdout = "not_exists" →
        (E appendMouseCmd).exitCode = 0 →
      (enableMouseMode E).2
        = [checkMouseCmd, appendMouseCmd, reloadConfCmd, setMouseOnCmd])
    ∧ (∀ E2 : String → CommandResult,
        E2 checkMouseCmd = E checkMouseCmd →
        E2 appendMouseCmd = E appendMouseCmd →
        enableMouseMode E2 = enableMouseMode E) := by
  refine ⟨?_, ?_, ?_⟩
  · intro h
    unfold enableMouseMode
    rw [if_neg h]
    exact ⟨rfl, by decide, by simp⟩
  · intro h h0
    unfold enableMouseMode
    rw [if_pos h, if_neg (by simp [h0])]
  · intro E2 h1 h2
    unfold enableMouseMode
    rw [h1, h2]

/-- C9 witness: with the probe reporting `exists`, the issued command trace
holds no append and ends with the live set-option command. -/
theorem enableMouseMode_contract_witness :
    (enableMouseMode mouseExistsOracle).2
        = [checkMouseCmd, reloadConfCmd, setMouseOnCmd]
    ∧ appendMouseCmd ∉ (enableMouseMode mouseExistsOracle).2
    ∧ setMouseOnCmd ∈ (enableMouseMode mouseExistsOracle).2 :=
  (enableMouseMode_contract mouseExistsOracle).1 (by decide)

/-- C3 counterexample: `removeConnection` called on the unknown id `"ghost"`
of a fresh registry completes with `ok` — no "connection not found" error is
raised, contradicting the claim that every registry operation reports one for
an unknown id. -/
theorem removeConnection_unknown_silently_ok :
    List.lookup "ghost" initialState.connections = none
    ∧ (removeConnection initialState "ghost").1 = Except.ok () :=
  ⟨by decide, rfl⟩

/-- C3 (amended): `getExecutor` and `updateSSHConnection` report the named
connection-not-found error (`连接不存在`) for an unknown (or, for update,
non-SSH) id; `removeConnection` rejects only the protected local id and
completes without error for every other id; `testConnection` collapses every
thrown failure to `false` and reports `exitCode == 0` otherwise (its `Bool`
return type models that it never throws). -/
theorem registry_error_reporting :
    (∀ (w : World) (st : RegistryState) (id : String),
      List.lookup id st.executors = none →
      List.lookup id st.connections = none →
      getExecutor w st id = (Except.error ("连接不存在: " ++ id), st))
    ∧ (∀ (st : RegistryState) (config : SSHConnectionConfig),
      List.lookup config.id st.connections = none →
      updateSSHConnection st config = (Except.error "连接不存在", st))
    ∧ (∀ (st : RegistryState) (config : SSHConnectionConfig)
        (existing : Connection),
      List.lookup config.id st.connections = some existing →
      existing.type ≠ ConnType.ssh →
      updateSSHConnection st config = (Except.error "连接不存在", st))
    ∧ (∀ (st : RegistryState) (id : String), id ≠ localConnectionId →
      (removeConnection st id).1 = Except.ok ())
    ∧ (∀ (w : World) (st : RegistryState) (id : String),
      (testConnection w st id).1
        = match (executeOn w st id "echo \"test\"").1 with
          | Except.ok r => r.exitCode == 0
          | Except.error _ => false) := by
  refine ⟨?_, ?_, ?_, ?_, ?_⟩
  · intro w st id hex hconn
    unfold getExecutor
    rw [hex, hconn]
  · intro st config hconn
    unfold updateSSHConnection
    rw [hconn]
  · intro st config existing hconn ht
    unfold updateSSHConnection
    rw [hconn]
    simp only [if_pos ht]
  · intro st id hid
    unfold removeConnection
    rw [if_neg hid]
  · intro w st id
    unfold testConnection
    rcases hE : executeOn w st id "echo \"test\"" with ⟨o, st1⟩
    cases o <;> simp [hE]

/-- C3 witness: the amended error reporting instantiated on a fresh registry
and the unknown id `"ghost"`. -/
theorem registry_error_reporting_witness :
    getExecutor trivialWorld initialState "ghost"
      = (Except.error ("连接不存在: " ++ "ghost"), initialState) :=
  registry_error_reporting.1 trivialWorld initialState "ghost"
    (by decide) (by decide)

/-- C4: for an SSH connection with no cached executor, the stored secret is
merged only when the in-memory config lacks it; a failed connect propagates
the error with the registry state unchanged (so the executor cache still has
no entry for that id and a retry starts fresh), and a successful connect
caches the connected executor built from the merged config. -/
theorem getExecutor_ssh_connect (w : World) (st : RegistryState) (id : String)
    (conn : Connection) (cfg0 cfg2 : SSHConnectionConfig)
    (hex : List.lookup id st.executors = none)
    (hconn : List.lookup id st.connections = some conn)
    (htype : conn.type = ConnType.ssh)
    (hcfg : conn.config = some cfg0)
    (hcfg2 : cfg2 = mergeStoredPassphrase st id (mergeStoredPassword st id cfg0)) :
    (∀ cfg : SSHConnectionConfig, truthy cfg.password = true →
      mergeStoredPassword st id cfg = cfg)
    ∧ (∀ cfg : SSHConnectionConfig, truthy cfg.passphrase = true →
      mergeStoredPassphrase st id cfg = cfg)
    ∧ (∀ e, w.connect cfg2 = Except.error e →
      getExecutor w st id = (Except.error e, st)
      ∧ List.lookup id (getExecutor w st id).2.executors = none)
    ∧ (w.connect cfg2 = Except.ok () →
      getExecutor w st id
        = (Except.ok (ExecutorModel.sshExec cfg2 true),
           { st with executors :=
               assocSet id (ExecutorModel.sshExec cfg2 true) st.executors })) := by
  have hlocal : conn.type ≠ ConnType.local := by
    rw [htype]
    intro hc
    exact ConnType.noConfusion hc
  refine ⟨?_, ?_, ?_, ?_⟩
  · intro cfg h
    unfold mergeStoredPassword
    rw [if_neg]
    intro hc
    rw [h] at hc
    simp at hc
  · intro cfg h
    unfold mergeStoredPassphrase
    rw [if_neg]
    intro hc
    rw [h] at hc
    simp at hc
  · intro e he
    have key : getExecutor w st id = (Except.error e, st) := by
      simp only [getExecutor, hex, hconn, if_neg hlocal, hcfg, if_pos htype,
        ← hcfg2, he]
    exact ⟨key, by rw [key]; exact hex⟩
  · intro he
    simp only [getExecutor, hex, hconn, if_neg hlocal, hcfg, if_pos htype,
      ← hcfg2, he]

/-- C4 witness: a rejected connect on a concrete registry propagates the
authentication error and leaves the state untouched. -/
theorem getExecutor_ssh_connect_witness :
    getExecutor failWorld sshStateExample "ssh-1"
      = (Except.error "authentication failed", sshStateExample)
    ∧ List.lookup "ssh-1" (getExecutor failWorld sshStateExample "ssh-1").2.executors
      = none :=
  (getExecutor_ssh_connect failWorld sshStateExample "ssh-1"
      sshConnectionExample sshConfigExample sshConfigExample
      (by decide) (by decide) (by decide) (by decide) (by decide)).2.2.1
    "authentication failed" rfl

/-- C5: every connection list written to durable non-secret storage through
`saveConnections` has `password` and `passphrase` stripped from every record;
hence over any sequence of add/update/remove operations, a registry whose
persisted list is stripped keeps it stripped. -/
theorem persisted_always_stripped :
    (∀ (conns : List (String × Connection)), ∀ c ∈ safeConnections conns,
      stripped c = true)
    ∧ (∀ (ops : List RegOp) (st : RegistryState),
      (∀ c ∈ st.persisted, stripped c = true) →
      ∀ c ∈ (ops.foldl applyOp st).persisted, stripped c = true) := by
  have hop : ∀ (st : RegistryState) (op : RegOp),
      (applyOp st op).persisted = st.persisted ∨
      ∃ conns, (applyOp st op).persisted = safeConnections conns := by
    intro st op
    cases op with
    | add cfg => exact Or.inr ⟨_, rfl⟩
    | update cfg =>
      simp only [applyOp]
      unfold updateSSHConnection
      cases h : List.lookup cfg.id st.connections with
      | none => exact Or.inl rfl
      | some existing =>
        dsimp only
        by_cases ht : existing.type ≠ ConnType.ssh
        · rw [if_pos ht]
          exact Or.inl rfl
        · rw [if_neg ht]
          exact Or.inr ⟨_, rfl⟩
    | remove id =>
      simp only [applyOp]
      unfold removeConnection
      by_cases h : id = localConnectionId
      · rw [if_pos h]
        exact Or.inl rfl
      · rw [if_neg h]
        exact Or.inr ⟨_, rfl⟩
  refine ⟨fun conns => stripped_mem_safeConnections conns, ?_⟩
  intro ops
  induction ops with
  | nil => intro st h; exact h
  | cons op t ih =>
    intro st h
    rw [List.foldl_cons]
    apply ih
    rcases hop st op with hsame | ⟨conns, hsafe⟩
    · rw [hsame]; exact h
    · rw [hsafe]
      exact stripped_mem_safeConnections conns

/-- C5 witness: the invariant instantiated on a fresh registry and a concrete
add/update/remove sequence, stated through the decidable `List.all`. -/
theorem persisted_always_stripped_witness :
    (([RegOp.add sshConfigExample, RegOp.update localOverwriteConfig,
        RegOp.remove "ssh-1"].foldl applyOp initialState).persisted.all
      stripped) = true :=
  List.all_eq_true.mpr
    (persisted_always_stripped.2
      [RegOp.add sshConfigExample, RegOp.update localOverwriteConfig,
        RegOp.remove "ssh-1"]
      initialState (by decide))

/-- C8 counterexample: for the SSH config whose id collides with the protected
local id, the add/getExecutor/remove sequence ends with `removeConnection`
rejecting the removal, and the Credential Store still holds the password
entry for that id — the claim fails for that config. -/
theorem addGetRemove_local_id_leaks :
    (removeConnection
        (getExecutor trivialWorld
          (addSSHConnection initialState localOverwriteConfig).2 "local").2
        "local").1
      = Except.error "不能移除本地连接"
    ∧ getStoredPassword
        (removeConnection
          (getExecutor trivialWorld
            (addSSHConnection initialState localOverwriteConfig).2 "local").2
          "local").2
        "local"
      = some "pw" :=
  ⟨rfl, by decide⟩

/-- C8 (amended): for every SSH config whose id is not the protected local id,
adding the connection, materializing its executor and removing it leaves the
Credential Store with no entry under either the password key or the
passphrase key for that id. -/
theorem addGetRemove_clears_secrets (w : World) (st : RegistryState)
    (config : SSHConnectionConfig) (hid : config.id ≠ localConnectionId) :
    (removeConnection
        (getExecutor w (addSSHConnection st config).2 config.id).2
        config.id).1
      = Except.ok ()
    ∧ getStoredPassword
        (removeConnection
          (getExecutor w (addSSHConnection st config).2 config.id).2
          config.id).2
        config.id
      = none
    ∧ getStoredPassphrase
        (removeConnection
          (getExecutor w (addSSHConnection st config).2 config.id).2
          config.id).2
        config.id
      = none := by
  unfold removeConnection
  rw [if_neg hid]
  refine ⟨rfl, ?_, ?_⟩
  · unfold getStoredPassword
    exact lookup_assocErase_of_none _ _ _ (lookup_assocErase_self _ _)
  · unfold getStoredPassphrase
    exact lookup_assocErase_self _ _

/-- C8 witness: the cleared Credential Store on a concrete add/get/remove run
for the id `"ssh-1"`. -/
theorem addGetRemove_clears_secrets_witness :
    getStoredPassword
        (removeConnection
          (getExecutor trivialWorld
            (addSSHConnection initialState sshConfigExample).2 "ssh-1").2
          "ssh-1").2
        "ssh-1"
      = none :=
  (addGetRemove_clears_secrets trivialWorld initialState sshConfigExample
    (by decide)).2.1

end Muxify
